import Mathlib

/-!
# Verification of the pharmacy-website form pipeline

Shallow embedding of the multi-form submission and validation pipeline of the
pharmacy marketing site: field validators, form-submission handlers
(refill, transfer, contact, waitlist, promotional splash), the pharmacy-API
adapters' credential guards, request payload construction and
response processing, and the localStorage-backed waitlist store.

The JavaScript/TypeScript source is embedded as executable Lean functions.
JavaScript platform primitives (`Number`, `String.prototype.split` with a
regex, regexp tests, `Date`, `JSON.parse`) are modelled by Lean functions on
the fragments of their behaviour the source exercises; each model carries a
doc comment describing the modelled fragment.
-/

namespace PharmacySite

/-! ## JavaScript platform model: numbers and strings -/

/-- Digit list to natural number (decimal). -/
def digitsVal (l : List Char) : ℕ :=
  l.foldl (fun acc c => 10 * acc + (c.toNat - '0'.toNat)) 0

/-- `String.prototype.trim` — strips leading and trailing whitespace
(structural implementation over the character list). -/
def jsTrim (s : String) : String :=
  ⟨((s.data.dropWhile Char.isWhitespace).reverse.dropWhile Char.isWhitespace).reverse⟩

/-- Splitting on every character matching `p`, keeping empty fragments —
the behaviour of `String.split`/JS `split` with a single-character class
(structural implementation). -/
def splitCharsAux (p : Char → Bool) : List Char → List Char → List String
  | [], acc => [⟨acc.reverse⟩]
  | c :: rest, acc =>
    if p c then ⟨acc.reverse⟩ :: splitCharsAux p rest []
    else splitCharsAux p rest (c :: acc)

/-- String split on a character predicate. -/
def strSplitP (p : Char → Bool) (s : String) : List String :=
  splitCharsAux p s.data []

/-- `String.prototype.toLowerCase` (ASCII). -/
def strToLower (s : String) : String := ⟨s.data.map Char.toLower⟩

/-- `String.prototype.toUpperCase` (ASCII). -/
def strToUpper (s : String) : String := ⟨s.data.map Char.toUpper⟩

/-- A finite JavaScript number value represented exactly as a scaled
decimal: the value is `mant / 10 ^ scale`.  The representation is produced
directly by the digits of the source string, so no rational normalization
is involved. -/
structure JsNum where
  mant : ℤ
  scale : ℕ
deriving DecidableEq, Repr

/-- The JS number of an integer. -/
def JsNum.ofInt (n : ℤ) : JsNum := ⟨n, 0⟩

/-- Value comparison `a <= b` of JS numbers, by cross-multiplication. -/
def JsNum.le (a b : JsNum) : Bool :=
  a.mant * 10 ^ b.scale ≤ b.mant * 10 ^ a.scale

/-- JS `ToIntegerOrInfinity` on a finite number — truncation toward zero. -/
def JsNum.trunc (x : JsNum) : ℤ :=
  if x.mant < 0 then -((-x.mant) / (10 : ℤ) ^ x.scale)
  else x.mant / (10 : ℤ) ^ x.scale

/-- Decimal rendering of a JS number for interpolated messages (exact for
integers, which is the only case the responses carry). -/
def JsNum.render (x : JsNum) : String :=
  if x.scale = 0 then toString x.mant
  else toString x.mant ++ "e-" ++ toString x.scale

/-- Model of JavaScript `Number(s)` on the decimal fragment: after trimming,
the empty string is `0`; otherwise an optional sign followed by decimal
digits with an optional fractional point (`"5"`, `"-5"`, `"1.5"`, `".5"`,
`"5."`). Returns `none` where `Number` yields `NaN`. Hexadecimal and
exponent forms, which the site's inputs never produce, are not modelled. -/
def jsNumber? (s : String) : Option JsNum :=
  let t := (jsTrim s)
  if t = "" then some (JsNum.ofInt 0)
  else
    let (sign, body) : ℤ × List Char :=
      match t.data with
      | '+' :: r => (1, r)
      | '-' :: r => (-1, r)
      | r => (1, r)
    let intPart := body.takeWhile Char.isDigit
    let rest := body.drop intPart.length
    match rest with
    | [] =>
      if intPart.isEmpty then none
      else some ⟨sign * (digitsVal intPart : ℤ), 0⟩
    | '.' :: fracBody =>
      let fracPart := fracBody.takeWhile Char.isDigit
      if fracBody.drop fracPart.length ≠ [] then none
      else if intPart.isEmpty ∧ fracPart.isEmpty then none
      else some ⟨sign * ((digitsVal intPart : ℤ) * 10 ^ fracPart.length +
        (digitsVal fracPart : ℤ)), fracPart.length⟩
    | _ => none

/-- Separator class of the regex `[\s,]+`: a comma or whitespace. -/
def isSepWS (c : Char) : Bool := c = ',' || c.isWhitespace

/-- Drops empty strings that are neither first nor last of the surrounding
list (the first element is handled by the caller). -/
def dropInteriorEmpty : List String → List String
  | [] => []
  | [x] => [x]
  | x :: y :: rest =>
    if x = "" then dropInteriorEmpty (y :: rest)
    else x :: dropInteriorEmpty (y :: rest)

/-- Model of JavaScript `s.split(/[\s,]+/)`: splitting on maximal runs of
commas/whitespace keeps a leading and trailing empty string (when the string
starts or ends with a separator) but no interior empties. -/
def jsSplitSeps (s : String) : List String :=
  match strSplitP isSepWS s with
  | [] => []
  | x :: rest => x :: dropInteriorEmpty rest

/-- Model of JavaScript `haystack.includes(needle)`. -/
def strIncludes (h n : String) : Bool :=
  (List.range (h.length + 1)).any fun i =>
    (h.data.drop i).take n.length == n.data

/-- Model of JS truthy-or `a || b` on string-or-undefined values:
`undefined` and the empty string fall through to `b`. -/
def jsOrStr (a b : Option String) : Option String :=
  match a with
  | some s => if s = "" then b else some s
  | none => b

/-- Model of the regex test `/\S+@\S+\.\S+/.test(s)` (search semantics):
the string contains `'@'` followed, after one or more non-space characters,
by `'.'`, with a non-space character directly before the `'@'` and directly
after the `'.'`. -/
def emailLike (s : String) : Bool :=
  let cs := s.data
  let n := cs.length
  (List.range n).any fun i =>
    (List.range n).any fun j =>
      decide (i + 1 < j) && (cs.getD i ' ' == '@') && (cs.getD j ' ' == '.') &&
      decide (0 < i) && !(cs.getD (i - 1) ' ').isWhitespace &&
      decide (j + 1 < n) && !(cs.getD (j + 1) ' ').isWhitespace &&
      ((List.range n).all fun k =>
        !(decide (i < k) && decide (k < j)) || !(cs.getD k ' ').isWhitespace)

/-- Separator class `[\s.\-]` of the phone regexes. -/
def isPhoneSep (c : Char) : Bool := c.isWhitespace || c = '.' || c = '-'

/-- Consumes one optional phone separator. -/
def dropOptPhoneSep : List Char → List Char
  | [] => []
  | c :: r => if isPhoneSep c then r else c :: r

/-- Matches `[\s.\-]?\d{3}[\s.\-]?\d{4}$` — the exchange and line number
with optional separators, to the end of the string. -/
def phoneTail (l : List Char) : Bool :=
  match dropOptPhoneSep l with
  | a :: b :: c :: r =>
    a.isDigit && b.isDigit && c.isDigit &&
    (match dropOptPhoneSep r with
     | [d1, d2, d3, d4] => d1.isDigit && d2.isDigit && d3.isDigit && d4.isDigit
     | _ => false)
  | _ => false

/-- Matches `(\(\d{3}\)|\d{3})` then `phoneTail`: the area code with or
without parentheses. -/
def phoneAreaTail : List Char → Bool
  | '(' :: a :: b :: c :: ')' :: r =>
    a.isDigit && b.isDigit && c.isDigit && phoneTail r
  | a :: b :: c :: r => a.isDigit && b.isDigit && c.isDigit && phoneTail r
  | _ => false

/-- Model of `/^(1\s?)?(\(\d{3}\)|\d{3})[\s.\-]?\d{3}[\s.\-]?\d{4}$/.test(s)`,
the US phone pattern of the contact, refill and transfer validators. -/
def usPhoneOk (s : String) : Bool :=
  phoneAreaTail s.data ||
  (match s.data with
   | '1' :: r =>
     phoneAreaTail r ||
     (match r with
      | c :: r2 => c.isWhitespace && phoneAreaTail r2
      | [] => false)
   | _ => false)

/-- Model of `/^\(?(\d{3})\)?[-.\s]?(\d{3})[-.\s]?(\d{4})$/.test(s)`, the
waitlist phone pattern (optional parentheses, independently optional). -/
def waitlistPhoneOk (s : String) : Bool :=
  let l1 : List Char :=
    match s.data with
    | '(' :: r => r
    | r => r
  match l1 with
  | a :: b :: c :: r =>
    a.isDigit && b.isDigit && c.isDigit &&
    (let r1 : List Char :=
      match r with
      | ')' :: r2 => r2
      | r2 => r2
     phoneTail r1)
  | _ => false

/-- Model of `/^\d{5}(-\d{4})?$/.test(s)`, the transfer ZIP pattern. -/
def zipOk (s : String) : Bool :=
  match s.data with
  | [a, b, c, d, e] => a.isDigit && b.isDigit && c.isDigit && d.isDigit && e.isDigit
  | [a, b, c, d, e, '-', f, g, h, i] =>
    a.isDigit && b.isDigit && c.isDigit && d.isDigit && e.isDigit &&
    f.isDigit && g.isDigit && h.isDigit && i.isDigit
  | _ => false

/-- Model of `/^[A-Z]{2}$/.test(s)` — exactly two upper-case letters. -/
def twoUpperOk (s : String) : Bool :=
  match s.data with
  | [a, b] => ('A' ≤ a && a ≤ 'Z') && ('A' ≤ b && b ≤ 'Z')
  | _ => false

/-- Model of `/^\d{7}$/.test(s)` — exactly seven digits (NCPDP id). -/
def sevenDigitsOk (s : String) : Bool :=
  match s.data with
  | [a, b, c, d, e, f, g] =>
    a.isDigit && b.isDigit && c.isDigit && d.isDigit &&
    e.isDigit && f.isDigit && g.isDigit
  | _ => false

/-! ## JavaScript platform model: local dates

`new Date(y, m0, d)` produces local midnight of the (normalized) civil date;
`new Date()` carries the current local date and time-of-day.  We model a
`Date` value by its count of milliseconds on a linear local-clock timeline:
(civil day number) * 86400000 + (milliseconds since local midnight).
A fixed UTC offset cancels in every comparison the source performs. -/

/-- Milliseconds per day. -/
def msPerDay : ℤ := 86400000

/-- Day number of the civil date `(y, m, d)` (days since 1970-01-01,
proleptic Gregorian), with JavaScript `Date` normalization: a month outside
1..12 rolls the year, a day outside the month rolls the month (the formula
is linear in `d`).  This models the day of `new Date(y, m - 1, d)` and of
`setFullYear`/`setHours(0,0,0,0)` results. -/
def daysFromCivil (y m d : ℤ) : ℤ :=
  let y1 := y + (m - 1) / 12
  let m1 := (m - 1) % 12 + 1
  let yy := y1 - (if m1 ≤ 2 then 1 else 0)
  let mp := (m1 + 9) % 12
  let doy := (153 * mp + 2) / 5 + d - 1
  365 * yy + yy / 4 - yy / 100 + yy / 400 + doy - 719468

/-- The current local instant: civil date plus milliseconds since local
midnight (`new Date()`). -/
structure LocalNow where
  year : ℤ
  month : ℤ
  day : ℤ
  msOfDay : ℤ
deriving DecidableEq, Repr

/-- `new Date()` followed by `setHours(0, 0, 0, 0)`: local midnight of the
current day, in model milliseconds. -/
def todayMidnightMs (now : LocalNow) : ℤ :=
  daysFromCivil now.year now.month now.day * msPerDay

/-- Local midnight of the civil date two calendar years before today (with
Feb-29 normalization), in model milliseconds. -/
def twoYearsAgoMidnightMs (now : LocalNow) : ℤ :=
  daysFromCivil (now.year - 2) now.month now.day * msPerDay

/-- `new Date()` followed by `setFullYear(getFullYear() - 2)`: same civil
month/day and time-of-day, two calendar years earlier (with Feb-29
normalization), in model milliseconds. -/
def twoYearsAgoMs (now : LocalNow) : ℤ :=
  twoYearsAgoMidnightMs now + now.msOfDay

/-- The value of `new Date(p0, p1 - 1, p2)` built from the first three
`Number`-parsed fragments of `s.split('-')`; `none` models an Invalid Date
(every comparison against it is false).  Arguments are truncated as by JS
`ToInteger` (date-input strings parse to integers anyway). -/
def jsDateFromStr (s : String) : Option ℤ :=
  let parts := (strSplitP (fun c => c = '-') s).map jsNumber?
  match parts.getD 0 none, parts.getD 1 none, parts.getD 2 none with
  | some y, some m, some d =>
    some (daysFromCivil y.trunc (m.trunc - 1 + 1) d.trunc * msPerDay)
  | _, _, _ => none

/-- Stepping the civil year down by two moves the day number strictly down
(in fact by at least 729 days), for every integer month and day. -/
theorem daysFromCivil_sub_two_lt (y m d : ℤ) :
    daysFromCivil (y - 2) m d < daysFromCivil y m d := by
  unfold daysFromCivil
  have hshift : y - 2 + (m - 1) / 12 = (y + (m - 1) / 12) - 2 := by ring
  rw [hshift]
  set y1 := y + (m - 1) / 12 with hy1
  set m1 := (m - 1) % 12 + 1 with hm1
  by_cases hm : m1 ≤ 2 <;> simp only [hm, if_true, if_false, reduceIte] <;>
  · set yy := y1 - (if m1 ≤ 2 then 1 else 0) with hyy
    have h4 : (y1 - 2 - (if m1 ≤ 2 then 1 else 0)) / 4 ≤ yy / 4 := by
      apply Int.ediv_le_ediv (by norm_num); omega
    have h400 : (y1 - 2 - (if m1 ≤ 2 then 1 else 0)) / 400 ≤ yy / 400 := by
      apply Int.ediv_le_ediv (by norm_num); omega
    have h100 : yy / 100 ≤ (y1 - 2 - (if m1 ≤ 2 then 1 else 0)) / 100 + 1 := by
      have hle : yy ≤ (y1 - 2 - (if m1 ≤ 2 then 1 else 0)) + 1 * 100 := by omega
      have := Int.ediv_le_ediv (c := 100) (by norm_num) hle
      rwa [Int.add_mul_ediv_right _ _ (by norm_num : (100 : ℤ) ≠ 0)] at this
    omega

/-! ## Form data types (src/types.ts) -/

/-- Contact reason enumeration. -/
inductive ContactReason
  | general | new | transfer | refill | rpm
deriving DecidableEq, Repr

/-- `ContactFormData`. -/
structure ContactFormData where
  name : String
  phone : String
  email : String
  reason : ContactReason
  message : String
  consent : Bool
deriving DecidableEq, Repr

/-- Preferred service enumeration of the refill form. -/
inductive PreferredService
  | pickup | delivery
deriving DecidableEq, Repr

/-- `RefillFormData`. -/
structure RefillFormData where
  patientName : String
  dob : String
  phone : String
  email : String
  prescriptionNumbers : String
  medicationNames : String
  preferredService : PreferredService
  notes : String
  consent : Bool
deriving DecidableEq, Repr

/-- `TransferFormData`. -/
structure TransferFormData where
  rxNumber : String
  rxFillDate : String
  transferToPharmacyName : String
  transferToPharmacyAddress1 : String
  transferToPharmacyAddress2 : String
  transferToPharmacyCity : String
  transferToPharmacyState : String
  transferToPharmacyZip : String
  transferToPharmacyPhone : String
  transferToPharmacyNCPDP : String
  transferRxRemark : String
  consent : Bool
deriving DecidableEq, Repr

/-- `WaitlistFormData` (note: no consent field exists on this form). -/
structure WaitlistFormData where
  name : String
  email : String
  phone : String
deriving DecidableEq, Repr

/-- Waitlist entry status enumeration. -/
inductive WaitlistStatus
  | active | contacted | enrolled
deriving DecidableEq, Repr

/-- `WaitlistEntry` — the persisted record shape. -/
structure WaitlistEntry where
  name : String
  email : String
  phone : String
  id : String
  timestamp : String
  status : WaitlistStatus
deriving DecidableEq, Repr

/-- `SplashModalFormData` (promotional signup; note: no consent field). -/
structure SplashFormData where
  email : String
deriving DecidableEq, Repr

/-- The submission status state machine shared by all form controllers. -/
inductive FormStatus
  | idle | submitting | success | error
deriving DecidableEq, Repr

/-! ## Field validators

Each validator mirrors the source `validate` function of its component,
producing a record with one `Option String` per form field (a `some` models
the presence of that key in the returned error object). -/

/-- Error map of the contact form. -/
structure ContactErrors where
  name : Option String := none
  phone : Option String := none
  email : Option String := none
  message : Option String := none
  consent : Option String := none
deriving DecidableEq, Repr

/-- `['new', 'transfer', 'refill'].includes(formData.reason)`. -/
def reasonNeedsMessage : ContactReason → Bool
  | .new | .transfer | .refill => true
  | _ => false

/-- `Contact.validate` (src/components/Contact.tsx). -/
def contactValidate (f : ContactFormData) : ContactErrors where
  name := if (jsTrim f.name) = "" then some "Full name is required." else none
  email :=
    if (jsTrim f.email) = "" then some "Email address is required."
    else if ¬emailLike f.email then some "Please enter a valid email address."
    else none
  phone :=
    if (jsTrim f.phone) = "" then some "Phone number is required."
    else if ¬usPhoneOk f.phone then some "Please enter a valid US phone number."
    else none
  message :=
    if reasonNeedsMessage f.reason ∧ (jsTrim f.message) = "" then
      some "Please provide more details for your request."
    else if (jsTrim f.message).length > 500 then
      some "Message must be less than 500 characters."
    else none
  consent :=
    if ¬f.consent then some "You must acknowledge the statement to proceed." else none

/-- `Object.keys(errors).length > 0` for the contact error map. -/
def contactHasErrors (e : ContactErrors) : Bool :=
  e.name.isSome || e.phone.isSome || e.email.isSome || e.message.isSome || e.consent.isSome

/-- Error map of the refill form. -/
structure RefillErrors where
  patientName : Option String := none
  dob : Option String := none
  phone : Option String := none
  email : Option String := none
  prescriptionNumbers : Option String := none
  medicationNames : Option String := none
  notes : Option String := none
  consent : Option String := none
deriving DecidableEq, Repr

/-- The tokens of the prescription-numbers field:
`split(/[\s,]+/).filter(n => n.trim())`. -/
def rxTokens (s : String) : List String :=
  (jsSplitSeps s).filter (fun n => (jsTrim n) ≠ "")

/-- The prescription-numbers branch of `RefillRequestModal.validate`. -/
def validateRxNumbers (s : String) : Option String :=
  if (jsTrim s) = "" then some "At least one prescription number is required."
  else if (jsTrim s).length > 1000 then some "Prescription numbers field is too long."
  else
    let rxNumbers := rxTokens s
    if rxNumbers.length = 0 ∨ rxNumbers.any (fun n => (jsNumber? n).isNone) then
      some "Please enter valid, numeric prescription number(s)."
    else none

/-- The date-of-birth branch of `RefillRequestModal.validate`: parse the
`YYYY-MM-DD` string as a local calendar date and reject dates after today's
local midnight. -/
def validateDob (s : String) (now : LocalNow) : Option String :=
  if (jsTrim s) = "" then some "Date of birth is required."
  else
    match jsDateFromStr s with
    | none => none
    | some selected =>
      if selected > todayMidnightMs now then some "Date of birth cannot be in the future."
      else none

/-- `RefillRequestModal.validate`. -/
def refillValidate (f : RefillFormData) (now : LocalNow) : RefillErrors where
  patientName := if (jsTrim f.patientName) = "" then some "Patient full name is required." else none
  dob := validateDob f.dob now
  phone :=
    if (jsTrim f.phone) = "" then some "Phone number is required."
    else if ¬usPhoneOk f.phone then some "Please enter a valid US phone number."
    else none
  email :=
    if (jsTrim f.email) ≠ "" ∧ ¬emailLike f.email then
      some "Please enter a valid email address."
    else none
  prescriptionNumbers := validateRxNumbers f.prescriptionNumbers
  medicationNames :=
    if (jsTrim f.medicationNames).length > 500 then
      some "Medication names cannot exceed 500 characters."
    else none
  notes := if (jsTrim f.notes).length > 500 then some "Notes cannot exceed 500 characters." else none
  consent :=
    if ¬f.consent then some "You must acknowledge the statement to proceed." else none

/-- `Object.keys(errors).length > 0` for the refill error map. -/
def refillHasErrors (e : RefillErrors) : Bool :=
  e.patientName.isSome || e.dob.isSome || e.phone.isSome || e.email.isSome ||
  e.prescriptionNumbers.isSome || e.medicationNames.isSome || e.notes.isSome ||
  e.consent.isSome

/-- Error map of the transfer form. -/
structure TransferErrors where
  rxNumber : Option String := none
  rxFillDate : Option String := none
  transferToPharmacyName : Option String := none
  transferToPharmacyAddress1 : Option String := none
  transferToPharmacyCity : Option String := none
  transferToPharmacyState : Option String := none
  transferToPharmacyZip : Option String := none
  transferToPharmacyPhone : Option String := none
  transferToPharmacyNCPDP : Option String := none
  consent : Option String := none
deriving DecidableEq, Repr

/-- The fill-date branch of `TransferRequestModal.validate`.  The future
check compares against today's local midnight; the two-years check compares
against `new Date()` two calendar years back, which retains the current
time-of-day.  The second assignment to `newErrors.rxFillDate` in the source
overwrites the first, hence the two-years message wins when both fire. -/
def validateRxFillDate (s : String) (now : LocalNow) : Option String :=
  if (jsTrim s) = "" then some "Last fill date is required."
  else
    match jsDateFromStr s with
    | none => none
    | some selected =>
      if selected < twoYearsAgoMs now then some "Fill date cannot be more than 2 years ago."
      else if selected > todayMidnightMs now then some "Fill date cannot be in the future."
      else none

/-- `TransferRequestModal.validate`. -/
def transferValidate (f : TransferFormData) (now : LocalNow) : TransferErrors where
  rxNumber :=
    if (jsTrim f.rxNumber) = "" ∨ (jsNumber? f.rxNumber).isNone then
      some "A valid prescription number is required."
    else if JsNum.le ((jsNumber? f.rxNumber).getD (JsNum.ofInt 0)) (JsNum.ofInt 0) then
      some "Prescription number must be a positive number."
    else none
  rxFillDate := validateRxFillDate f.rxFillDate now
  transferToPharmacyName :=
    if (jsTrim f.transferToPharmacyName) = "" then
      some "Destination pharmacy name is required." else none
  transferToPharmacyAddress1 :=
    if (jsTrim f.transferToPharmacyAddress1) = "" then
      some "Address Line 1 is required." else none
  transferToPharmacyCity :=
    if (jsTrim f.transferToPharmacyCity) = "" then some "City is required." else none
  transferToPharmacyState :=
    if (jsTrim f.transferToPharmacyState) = "" then some "State is required."
    else if ¬twoUpperOk (strToUpper (jsTrim f.transferToPharmacyState)) then
      some "Please use 2-letter state code (e.g., OH)."
    else none
  transferToPharmacyZip :=
    if (jsTrim f.transferToPharmacyZip) = "" then some "ZIP code is required."
    else if ¬zipOk f.transferToPharmacyZip then
      some "Please enter a valid 5-digit ZIP code."
    else none
  transferToPharmacyPhone :=
    if (jsTrim f.transferToPharmacyPhone) = "" then some "Pharmacy phone number is required."
    else if ¬usPhoneOk f.transferToPharmacyPhone then
      some "Please enter a valid US phone number."
    else none
  transferToPharmacyNCPDP :=
    if (jsTrim f.transferToPharmacyNCPDP) ≠ "" ∧ ¬sevenDigitsOk (jsTrim f.transferToPharmacyNCPDP) then
      some "NCPDP number must be 7 digits."
    else none
  consent :=
    if ¬f.consent then some "You must authorize this transfer request." else none

/-- `Object.keys(errors).length > 0` for the transfer error map. -/
def transferHasErrors (e : TransferErrors) : Bool :=
  e.rxNumber.isSome || e.rxFillDate.isSome || e.transferToPharmacyName.isSome ||
  e.transferToPharmacyAddress1.isSome || e.transferToPharmacyCity.isSome ||
  e.transferToPharmacyState.isSome || e.transferToPharmacyZip.isSome ||
  e.transferToPharmacyPhone.isSome || e.transferToPharmacyNCPDP.isSome ||
  e.consent.isSome

/-- Error map of the waitlist form. -/
structure WaitlistErrors where
  name : Option String := none
  email : Option String := none
  phone : Option String := none
deriving DecidableEq, Repr

/-- `isEmailOnWaitlist` (src/components/WaitlistModal.tsx): linear scan of
the stored entries for a case-insensitive email match. -/
def isEmailOnWaitlist (email : String) (store : List WaitlistEntry) : Bool :=
  store.any (fun e => (strToLower e.email) = (strToLower email))

/-- `WaitlistModal.validate` — validation reads the duplicate-entry store. -/
def waitlistValidate (f : WaitlistFormData) (store : List WaitlistEntry) : WaitlistErrors where
  name :=
    if (jsTrim f.name) = "" then some "Full name is required."
    else if (jsTrim f.name).length > 100 then some "Full name cannot exceed 100 characters."
    else none
  email :=
    if (jsTrim f.email) = "" then some "Email address is required."
    else if ¬emailLike f.email then some "Please enter a valid email address."
    else if isEmailOnWaitlist f.email store then
      some "This email address is already on the waitlist."
    else none
  phone :=
    if (jsTrim f.phone) ≠ "" ∧ ¬waitlistPhoneOk f.phone then
      some "Please enter a valid phone number."
    else none

/-- `Object.keys(errors).length > 0` for the waitlist error map. -/
def waitlistHasErrors (e : WaitlistErrors) : Bool :=
  e.name.isSome || e.email.isSome || e.phone.isSome

/-- Error map of the splash (promotional signup) form. -/
structure SplashErrors where
  email : Option String := none
deriving DecidableEq, Repr

/-- `SplashModal.validate`. -/
def splashValidate (f : SplashFormData) : SplashErrors where
  email :=
    if (jsTrim f.email) = "" then some "Email address is required."
    else if ¬emailLike f.email then some "Please enter a valid email address."
    else none

/-- `Object.keys(errors).length > 0` for the splash error map. -/
def splashHasErrors (e : SplashErrors) : Bool :=
  e.email.isSome

/-! ## Deployment configuration and HTTP model -/

/-- The pharmacy-API credentials read from `process.env` (vite `define`
injection); `none` models an unset variable. -/
structure Env where
  username : Option String
  password : Option String
  apiKey : Option String
  pharmacyNumber : Option String
deriving DecidableEq, Repr

/-- JS string falsiness: `!x` is true for `undefined` and `""`. -/
def strFalsy : Option String → Bool
  | none => true
  | some s => s = ""

/-- An HTTP response as the handlers observe it: status code, whether
`response.json()` resolves, and the decoded body fields.  A `none` response
at the call site models a rejected `fetch` (network failure). -/
structure HttpResp (B : Type) where
  status : ℕ
  jsonOk : Bool
  body : B
deriving DecidableEq, Repr

/-- `response.ok` — status in the 2xx range. -/
def respOk {B : Type} (r : HttpResp B) : Bool :=
  decide (200 ≤ r.status) && decide (r.status < 300)

/-! ## Refill adapter (RefillRequestModal.handleSubmit) -/

/-- `getLastName`: final token of the trimmed full name split on single
spaces, with `|| ''` for the empty case. -/
def getLastName (s : String) : String :=
  (strSplitP (fun c => c = ' ') (jsTrim s)).getLastD ""

/-- `formData.phone.replace(/\D/g, '')` — digits only. -/
def digitsOnly (s : String) : String :=
  ⟨s.data.filter Char.isDigit⟩

/-- The prescription-number list of the refill payload:
`split(/[\s,]+/).filter(num => num.trim() !== '' && !isNaN(Number(num))).map(num => Number(num.trim()))`. -/
def payloadRxNumbers (s : String) : List JsNum :=
  ((jsSplitSeps s).filter
    (fun num => (jsTrim num) ≠ "" && (jsNumber? num).isSome)).map
    (fun num => (jsNumber? (jsTrim num)).getD (JsNum.ofInt 0))

/-- The JSON body POSTed to `SendRefillRequest` (request timestamp passed
in as the pre-rendered ISO string). -/
structure RefillPayload where
  userName : String
  apiKey : String
  pharmacyNumber : String
  lastName : String
  dob : String
  phone : String
  requestDateTime : String
  deliveryOption : ℤ
  requestType : ℤ
  rxInRefillRequest : List JsNum
  notes : String
deriving DecidableEq, Repr

/-- `payload` construction in `RefillRequestModal.handleSubmit`, given the
three credentials (already known present). -/
def buildRefillPayload (f : RefillFormData) (username apiKey pharmacyNumber isoNow : String) :
    RefillPayload where
  userName := username
  apiKey := apiKey
  pharmacyNumber := pharmacyNumber
  lastName := getLastName f.patientName
  dob := f.dob
  phone := digitsOnly f.phone
  requestDateTime := isoNow
  deliveryOption := if f.preferredService = .pickup then 1 else 2
  requestType := 1
  rxInRefillRequest := payloadRxNumbers f.prescriptionNumbers
  notes :=
    (if f.medicationNames ≠ "" then "Medications: " ++ f.medicationNames ++ ". " else "")
      ++ f.notes

/-- One element of `result.RxInRefillResponse`. -/
structure RxRespEntry where
  rxNo : JsNum
  status : Option String
  statusDesc : Option String
deriving DecidableEq, Repr

/-- Decoded refill response body. `rxInRefillResponse = none` models the
field being absent or not an array. -/
structure RefillRespBody where
  errorCode : Option String := none
  code : Option String := none
  message : Option String := none
  rxInRefillResponse : Option (List RxRespEntry) := none
deriving DecidableEq, Repr

/-- The non-2xx error-message mapping of the refill handler (the
`if (!response.ok)` block), producing the message thrown. -/
def refillErrorMessage (status : ℕ) (jsonOk : Bool) (body : RefillRespBody) : String :=
  let errorData := if jsonOk then body else {}
  if status = 400 then
    match jsOrStr errorData.errorCode errorData.code with
    | some "1000" => "Service configuration error. Please contact support."
    | some "1001" => "Invalid pharmacy configuration. Please contact support."
    | some "1011" => "Patient last name is required."
    | some "1012" => "Please enter a valid date of birth."
    | some "1013" => "Invalid request timestamp. Please try again."
    | some "1014" => "Please enter at least one prescription number."
    | some "1015" => "Invalid delivery option selected."
    | some "1016" => "Invalid request source. Please try again."
    | some "1019" => "Prescription number or patient ID is required."
    | _ =>
      (jsOrStr errorData.message
        (some "Invalid request data. Please check your information.")).getD ""
  else if status = 403 then
    match jsOrStr errorData.errorCode errorData.code with
    | some "1004" => "Service authentication failed. Please contact support."
    | some "1018" => "Pharmacy not authorized for this service. Please contact support."
    | _ => "Access denied. Please contact support."
  else if status = 500 then
    "The pharmacy system is temporarily unavailable. Please try again later."
  else "An error occurred while processing your refill request."

/-- The refill catch block: recognised thrown messages pass through,
network errors map to the connectivity message, anything else to a generic
message. -/
def refillCatchFilter (m : String) : String :=
  if strIncludes m "Service configuration error" ||
     strIncludes m "Invalid pharmacy configuration" ||
     strIncludes m "Patient last name is required" ||
     strIncludes m "Please enter a valid date of birth" ||
     strIncludes m "Invalid request timestamp" ||
     strIncludes m "Please enter at least one prescription number" ||
     strIncludes m "Invalid delivery option selected" ||
     strIncludes m "Invalid request source" ||
     strIncludes m "Prescription number or patient ID is required" ||
     strIncludes m "Service authentication failed" ||
     strIncludes m "Pharmacy not authorized for this service" ||
     strIncludes m "Access denied" ||
     strIncludes m "The pharmacy system is temporarily unavailable" ||
     strIncludes m "Some refill requests failed" ||
     strIncludes m "Unexpected response from pharmacy system" then m
  else if strIncludes m "fetch" || strIncludes m "NetworkError" then
    "Network connection failed. Please check your internet connection and try again."
  else "An unexpected error occurred. Please try again or contact support."

/-- Observable outcome of one `handleSubmit` run of a pharmacy-API form:
the error map written by `setErrors` (if any), the final status written by
`setStatus` (`none` when the handler returned without touching it, i.e. the
controller stays `idle`), the final `apiError`, whether `fetch` was
dispatched, and the payload it was given. -/
structure AdapterOutcome (E P : Type) where
  errorsSet : Option E
  statusSet : Option FormStatus
  apiError : Option String
  fetchCalled : Bool
  payload : Option P
deriving DecidableEq, Repr

/-- `RefillRequestModal.handleSubmit`.  `isoNow` stands for
`new Date().toISOString()`; `resp = none` models a rejected `fetch` (whose
`TypeError` message contains `"fetch"`). -/
def refillHandleSubmit (f : RefillFormData) (env : Env) (now : LocalNow) (isoNow : String)
    (resp : Option (HttpResp RefillRespBody)) :
    AdapterOutcome RefillErrors RefillPayload :=
  let validationErrors := refillValidate f now
  if refillHasErrors validationErrors then
    { errorsSet := some validationErrors, statusSet := none, apiError := none,
      fetchCalled := false, payload := none }
  else if strFalsy env.username || strFalsy env.apiKey || strFalsy env.pharmacyNumber then
    { errorsSet := none, statusSet := some .error,
      apiError := some "Service configuration error. Please contact support.",
      fetchCalled := false, payload := none }
  else
    let rxNumbers := payloadRxNumbers f.prescriptionNumbers
    if rxNumbers.length = 0 then
      { errorsSet := none, statusSet := some .error,
        apiError := some "Please enter at least one valid prescription number.",
        fetchCalled := false, payload := none }
    else
      let payload := buildRefillPayload f (env.username.getD "") (env.apiKey.getD "")
        (env.pharmacyNumber.getD "") isoNow
      match resp with
      | none =>
        { errorsSet := none, statusSet := some .error,
          apiError := some (refillCatchFilter "Failed to fetch"),
          fetchCalled := true, payload := some payload }
      | some r =>
        if ¬respOk r then
          { errorsSet := none, statusSet := some .error,
            apiError := some (refillCatchFilter (refillErrorMessage r.status r.jsonOk r.body)),
            fetchCalled := true, payload := some payload }
        else if ¬r.jsonOk then
          { errorsSet := none, statusSet := some .error,
            apiError := some (refillCatchFilter "Unexpected end of JSON input"),
            fetchCalled := true, payload := some payload }
        else
          match r.body.rxInRefillResponse with
          | some items =>
            let failedRequests := items.filter (fun it => it.status ≠ some "OK")
            if failedRequests.length = 0 then
              { errorsSet := some {}, statusSet := some .success, apiError := none,
                fetchCalled := true, payload := some payload }
            else
              let msgs := failedRequests.map (fun it =>
                "Rx " ++ it.rxNo.render ++ ": " ++ (jsOrStr it.statusDesc (some "Request failed")).getD "")
              { errorsSet := none, statusSet := some .error,
                apiError := some ("Some refill requests failed: " ++ String.intercalate ", " msgs),
                fetchCalled := true, payload := some payload }
          | none =>
            { errorsSet := none, statusSet := some .error,
              apiError := some "Unexpected response from pharmacy system. Please contact support.",
              fetchCalled := true, payload := some payload }

/-! ## Transfer adapter (TransferRequestModal.handleSubmit) -/

/-- The `TransferToPharmacy` object of the transfer payload. -/
structure TransferToPharmacy where
  pharmacyName : String
  address1 : String
  address2 : String
  city : String
  state : String
  zip : String
  pharmacyNCPDP : String
  pharmacyPhoneNumber : String
  pharmacyFaxNumber : String
  contactName : String
deriving DecidableEq, Repr

/-- The JSON body POSTed to `submitrxtransferrequest` (`transferDate` passed
in as the pre-rendered `toISOString().split('T')[0]` string). -/
structure TransferPayload where
  pharmacyNumber : String
  rxNo : JsNum
  rxFillDate : String
  transferToPharmacy : TransferToPharmacy
  transferDate : String
  rphInitial : String
  contactName : String
  transferRxRemark : String
  userID : String
  rxTransferType : ℤ
deriving DecidableEq, Repr

/-- `payload` construction in `TransferRequestModal.handleSubmit`. -/
def buildTransferPayload (f : TransferFormData) (pharmacyNumber isoToday : String) :
    TransferPayload where
  pharmacyNumber := pharmacyNumber
  rxNo := (jsNumber? f.rxNumber).getD (JsNum.ofInt 0)
  rxFillDate := f.rxFillDate
  transferToPharmacy :=
    { pharmacyName := (jsTrim f.transferToPharmacyName)
      address1 := (jsTrim f.transferToPharmacyAddress1)
      address2 := (jsTrim f.transferToPharmacyAddress2)
      city := (jsTrim f.transferToPharmacyCity)
      state := strToUpper (jsTrim f.transferToPharmacyState)
      zip := (jsTrim f.transferToPharmacyZip)
      pharmacyNCPDP := (jsTrim f.transferToPharmacyNCPDP)
      pharmacyPhoneNumber := digitsOnly f.transferToPharmacyPhone
      pharmacyFaxNumber := ""
      contactName := "" }
  transferDate := isoToday
  rphInitial := "VVP"
  contactName := "Patient Web Request"
  transferRxRemark := (jsTrim f.transferRxRemark)
  userID := "WEB"
  rxTransferType := 0

/-- Decoded transfer response body.  `dataPresent` models the truthiness of
`result.Data`; `validationMessage`/`messagesMessage` model
`result.Data?.ListOfValidationMessage?.[0]?.Message` and
`result.Messages?.[0]?.Message`. -/
structure TransferRespBody where
  errorCode : Option String := none
  code : Option String := none
  message : Option String := none
  isValid : Option Bool := none
  dataPresent : Bool := false
  rxTransferred : Option Bool := none
  validationMessage : Option String := none
  messagesMessage : Option String := none
deriving DecidableEq, Repr

/-- The non-2xx error-message mapping of the transfer handler (the
`if (!response.ok)` block).  The final `response.status === 200 &&
errorData.ErrorCode === 'ERROR0082'` test of the source is reproduced as
written; it sits inside the `!response.ok` branch. -/
def transferErrorMessage (status : ℕ) (jsonOk : Bool) (body : TransferRespBody) : String :=
  let errorData := if jsonOk then body else {}
  if status = 400 then
    match jsOrStr errorData.errorCode errorData.code with
    | some "ERROR0027" => "Please provide pharmacy number or NCPDP number."
    | some "ERROR0069" => "Please provide valid fill date."
    | some "ERROR0070" => "Fill date cannot be in the future."
    | some "ERROR0080" => "Please provide valid RX number."
    | _ =>
      (jsOrStr errorData.message
        (some "Invalid request data. Please check your information.")).getD ""
  else if status = 401 then
    match jsOrStr errorData.errorCode errorData.code with
    | some "ERROR0003" => "Authentication failed. Please contact support."
    | _ => "Access denied. Please contact support."
  else if status = 200 ∧ errorData.errorCode = some "ERROR0082" then
    "Error while sending transfer Rx request. Please try again or contact support."
  else "An error occurred while processing your transfer request."

/-- The transfer catch block, mirroring its `includes` cascade. -/
def transferCatchFilter (m : String) : String :=
  if strIncludes m "Please provide pharmacy number or NCPDP number" ||
     strIncludes m "Please provide valid fill date" ||
     strIncludes m "Fill date cannot be in the future" ||
     strIncludes m "Please provide valid RX number" ||
     strIncludes m "Authentication failed" ||
     strIncludes m "Access denied" ||
     strIncludes m "Error while sending transfer Rx request" ||
     strIncludes m "Transfer request validation failed" ||
     strIncludes m "Unexpected response from pharmacy system" then m
  else if strIncludes m "fetch" || strIncludes m "NetworkError" then
    "Network connection failed. Please check your internet connection and try again."
  else "An unexpected error occurred. Please try again or contact support."

/-- `TransferRequestModal.handleSubmit`. -/
def transferHandleSubmit (f : TransferFormData) (env : Env) (now : LocalNow) (isoToday : String)
    (resp : Option (HttpResp TransferRespBody)) :
    AdapterOutcome TransferErrors TransferPayload :=
  let validationErrors := transferValidate f now
  if transferHasErrors validationErrors then
    { errorsSet := some validationErrors, statusSet := none, apiError := none,
      fetchCalled := false, payload := none }
  else if strFalsy env.username || strFalsy env.password || strFalsy env.pharmacyNumber then
    { errorsSet := none, statusSet := some .error,
      apiError := some "Service configuration error. Please contact support.",
      fetchCalled := false, payload := none }
  else
    let payload := buildTransferPayload f (env.pharmacyNumber.getD "") isoToday
    match resp with
    | none =>
      { errorsSet := none, statusSet := some .error,
        apiError := some (transferCatchFilter "Failed to fetch"),
        fetchCalled := true, payload := some payload }
    | some r =>
      if ¬respOk r then
        { errorsSet := none, statusSet := some .error,
          apiError := some (transferCatchFilter (transferErrorMessage r.status r.jsonOk r.body)),
          fetchCalled := true, payload := some payload }
      else if ¬r.jsonOk then
        { errorsSet := none, statusSet := some .error,
          apiError := some (transferCatchFilter "Unexpected end of JSON input"),
          fetchCalled := true, payload := some payload }
      else
        let result := r.body
        if result.isValid = some false then
          let validationMsg :=
            (jsOrStr result.validationMessage
              (jsOrStr result.messagesMessage
                (some "Transfer request validation failed."))).getD ""
          { errorsSet := none, statusSet := some .error,
            apiError := some (transferCatchFilter validationMsg),
            fetchCalled := true, payload := some payload }
        else if result.dataPresent && result.rxTransferred = some true then
          { errorsSet := some {}, statusSet := some .success, apiError := none,
            fetchCalled := true, payload := some payload }
        else
          { errorsSet := none, statusSet := some .error,
            apiError := some "Unexpected response from pharmacy system. Please contact support.",
            fetchCalled := true, payload := some payload }

/-! ## Contact and splash handlers (mock submissions)

Both handlers validate, then run a mocked delay and log — no request is
issued to any backend and no record identifier is produced.  The outcome
records this: `adapterRan` is the mock promise having run, and
`backendCreates`/`returnedId` count the backend create operations actually
performed by the source (none exist). -/

/-- Observable outcome of `Contact.handleSubmit`. -/
structure ContactOutcome where
  errorsSet : Option ContactErrors
  statusSet : Option FormStatus
  adapterRan : Bool
  backendCreates : ℕ
  returnedId : Option String
  formAfter : ContactFormData
deriving DecidableEq, Repr

/-- The default (reset) contact form data. -/
def contactDefault : ContactFormData where
  name := ""
  phone := ""
  email := ""
  reason := .general
  message := ""
  consent := false

/-- `Contact.handleSubmit` (src/components/Contact.tsx): validation gate,
then a mock API call (`await new Promise(setTimeout)` + `console.log`),
success status, and a form reset. -/
def contactHandleSubmit (f : ContactFormData) : ContactOutcome :=
  let validationErrors := contactValidate f
  if contactHasErrors validationErrors then
    { errorsSet := some validationErrors, statusSet := none, adapterRan := false,
      backendCreates := 0, returnedId := none, formAfter := f }
  else
    { errorsSet := some {}, statusSet := some .success, adapterRan := true,
      backendCreates := 0, returnedId := none, formAfter := contactDefault }

/-- Observable outcome of `SplashModal.handleSubmit`. -/
structure SplashOutcome where
  errorsSet : Option SplashErrors
  statusSet : Option FormStatus
  adapterRan : Bool
  backendCreates : ℕ
  returnedId : Option String
deriving DecidableEq, Repr

/-- `SplashModal.handleSubmit`: validation gate, then a mock API call and
success status. -/
def splashHandleSubmit (f : SplashFormData) : SplashOutcome :=
  let validationErrors := splashValidate f
  if splashHasErrors validationErrors then
    { errorsSet := some validationErrors, statusSet := none, adapterRan := false,
      backendCreates := 0, returnedId := none }
  else
    { errorsSet := some {}, statusSet := some .success, adapterRan := true,
      backendCreates := 0, returnedId := none }

/-! ## Waitlist store and handler (typed level)

The store is the parsed content of the `elevated-wellness-waitlist`
localStorage key in the well-formed case: a list of `WaitlistEntry`. -/

/-- `saveWaitlistEntry`: re-checks the duplicate email at write time, then
appends the entry extended with the generated id (`Date.now().toString()`),
timestamp (`toISOString()`) and initial `active` status; both generated
strings are passed in.  Returns the saved entry and the new store, or the
duplicate-email error. -/
def saveWaitlistEntry (name email phone : String) (store : List WaitlistEntry)
    (idStr tsStr : String) : Except String (WaitlistEntry × List WaitlistEntry) :=
  if store.any (fun e => (strToLower e.email) = (strToLower email)) then
    .error "This email address is already on the waitlist."
  else
    let newEntry : WaitlistEntry :=
      { name := name, email := email, phone := phone,
        id := idStr, timestamp := tsStr, status := .active }
    .ok (newEntry, store ++ [newEntry])

/-- Observable outcome of `WaitlistModal.handleSubmit`: the store after the
run, the saved entry if any, plus the error map and status written. -/
structure WaitlistOutcome where
  errorsSet : Option WaitlistErrors
  statusSet : Option FormStatus
  store : List WaitlistEntry
  saved : Option WaitlistEntry
deriving DecidableEq, Repr

/-- `WaitlistModal.handleSubmit`: validation gate (which includes the
duplicate check against the store), then `saveWaitlistEntry` on the trimmed
fields; a save error flips the status to `error` and leaves the store
untouched. -/
def waitlistHandleSubmit (f : WaitlistFormData) (store : List WaitlistEntry)
    (idStr tsStr : String) : WaitlistOutcome :=
  let validationErrors := waitlistValidate f store
  if waitlistHasErrors validationErrors then
    { errorsSet := some validationErrors, statusSet := none, store := store, saved := none }
  else
    match saveWaitlistEntry (jsTrim f.name) (jsTrim f.email) (jsTrim f.phone) store idStr tsStr with
    | .ok (entry, store2) =>
      { errorsSet := some {}, statusSet := some .success, store := store2, saved := some entry }
    | .error _ =>
      { errorsSet := none, statusSet := some .error, store := store, saved := none }

/-! ## Waitlist store, raw storage level

`getWaitlistEntries` reads a string from localStorage and runs `JSON.parse`
on it inside a try/catch.  `JSON.parse` returns whatever JSON value the text
denotes — not necessarily an array — and the TypeScript return annotation
does not check it.  This layer models that untyped boundary. -/

/-- A JSON value. -/
inductive Json
  | null
  | jbool (b : Bool)
  | jnum (n : JsNum)
  | jstr (s : String)
  | jarr (l : List Json)
  | jobj (l : List (String × Json))

/-- JSON insignificant whitespace. -/
def skipWsJ (l : List Char) : List Char :=
  l.dropWhile (fun c => c = ' ' || c = '\t' || c = '\n' || c = '\r')

mutual

/-- Fueled recursive-descent parser for a JSON value, modelling
`JSON.parse` on the grammar without string escapes and numeric exponents
(sufficient for the stored waitlist data and for witnesses). -/
def parseJsonVal : ℕ → List Char → Option (Json × List Char)
  | 0, _ => none
  | fuel + 1, l =>
    match skipWsJ l with
    | 'n' :: 'u' :: 'l' :: 'l' :: r => some (.null, r)
    | 't' :: 'r' :: 'u' :: 'e' :: r => some (.jbool true, r)
    | 'f' :: 'a' :: 'l' :: 's' :: 'e' :: r => some (.jbool false, r)
    | '"' :: r =>
      let str := r.takeWhile (fun c => c ≠ '"')
      (match r.drop str.length with
       | '"' :: r2 => some (.jstr ⟨str⟩, r2)
       | _ => none)
    | '[' :: r =>
      (match parseJsonElems fuel r with
       | some (vs, r2) => some (.jarr vs, r2)
       | none => none)
    | '{' :: r =>
      (match parseJsonMembers fuel r with
       | some (ms, r2) => some (.jobj ms, r2)
       | none => none)
    | l2 =>
      let (sign, r1) : ℤ × List Char :=
        match l2 with
        | '-' :: r => (-1, r)
        | r => (1, r)
      let digits := r1.takeWhile Char.isDigit
      if digits.isEmpty then none
      else
        let r2 := r1.drop digits.length
        match r2 with
        | '.' :: r3 =>
          let fracDigits := r3.takeWhile Char.isDigit
          if fracDigits.isEmpty then none
          else some (.jnum ⟨sign * ((digitsVal digits : ℤ) * 10 ^ fracDigits.length +
            (digitsVal fracDigits : ℤ)), fracDigits.length⟩,
            r3.drop fracDigits.length)
        | _ => some (.jnum ⟨sign * (digitsVal digits : ℤ), 0⟩, r2)

/-- Array elements after `'['`. -/
def parseJsonElems : ℕ → List Char → Option (List Json × List Char)
  | 0, _ => none
  | fuel + 1, l =>
    match skipWsJ l with
    | ']' :: r => some ([], r)
    | l2 =>
      match parseJsonVal fuel l2 with
      | none => none
      | some (v, r) =>
        match skipWsJ r with
        | ',' :: r2 =>
          (match parseJsonElems fuel r2 with
           | some (vs, r3) => if vs.isEmpty then none else some (v :: vs, r3)
           | none => none)
        | ']' :: r2 => some ([v], r2)
        | _ => none

/-- Object members after `'{'`. -/
def parseJsonMembers : ℕ → List Char → Option (List (String × Json) × List Char)
  | 0, _ => none
  | fuel + 1, l =>
    match skipWsJ l with
    | '}' :: r => some ([], r)
    | '"' :: r =>
      let key := r.takeWhile (fun c => c ≠ '"')
      (match r.drop key.length with
       | '"' :: r2 =>
         (match skipWsJ r2 with
          | ':' :: r3 =>
            (match parseJsonVal fuel r3 with
             | none => none
             | some (v, r4) =>
               match skipWsJ r4 with
               | ',' :: r5 =>
                 (match parseJsonMembers fuel r5 with
                  | some (ms, r6) => if ms.isEmpty then none else some ((⟨key⟩, v) :: ms, r6)
                  | none => none)
               | '}' :: r5 => some ([(⟨key⟩, v)], r5)
               | _ => none)
          | _ => none)
       | _ => none)
    | _ => none

end

/-- `JSON.parse(s)` as an `Option`: `none` models the thrown `SyntaxError`. -/
def jsonParse (s : String) : Option Json :=
  match parseJsonVal (2 * s.length + 2) s.data with
  | some (v, rest) => if skipWsJ rest = [] then some v else none
  | none => none

/-- `getWaitlistEntries` at the raw level: `localStorage.getItem` returns
`none` (absent) or the stored text; an empty string is falsy and yields
`[]`; a parse failure is caught and yields `[]`; a successful parse returns
the parsed value unchanged, whatever its shape. -/
def getWaitlistEntriesJ (storage : Option String) : Json :=
  match storage with
  | none => .jarr []
  | some s =>
    if s = "" then .jarr []
    else
      match jsonParse s with
      | some v => v
      | none => .jarr []

/-- `entry.email.toLowerCase()` on an untyped entry: succeeds only when the
entry is an object whose `email` member (last occurrence wins, as in
`JSON.parse`) is a string; every other shape throws a `TypeError` at the
member access or the `toLowerCase` call. -/
def entryEmailLower (e : Json) : Except String String :=
  match e with
  | .jobj fields =>
    match fields.reverse.find? (fun kv => kv.1 = "email") with
    | some (_, .jstr s) => .ok (strToLower s)
    | _ => .error "TypeError"
  | _ => .error "TypeError"

/-- `entries.some(entry => entry.email.toLowerCase() === email.toLowerCase())`
over untyped elements: stops at the first match, throws at the first
ill-shaped entry reached. -/
def jsSomeEmail (email : String) : List Json → Except String Bool
  | [] => .ok false
  | e :: rest =>
    match entryEmailLower e with
    | .error m => .error m
    | .ok s => if s = (strToLower email) then .ok true else jsSomeEmail email rest

/-- `isEmailOnWaitlist` at the raw level: `entries.some(...)` throws a
`TypeError` when `getWaitlistEntries` produced a non-array value. -/
def isEmailOnWaitlistJ (email : String) (storage : Option String) : Except String Bool :=
  match getWaitlistEntriesJ storage with
  | .jarr l => jsSomeEmail email l
  | _ => .error "TypeError"

/-- Whether a JSON value is an array. -/
def Json.isArr : Json → Bool
  | .jarr _ => true
  | _ => false

/-! ## Concrete sample data used by theorem witnesses -/

/-- A sample submission instant: 2026-10-11, noon local time. -/
def nowNoon : LocalNow := ⟨2026, 10, 11, 43200000⟩

/-- A fully valid refill form. -/
def sampleRefill : RefillFormData :=
  ⟨"Jane Doe", "1990-01-15", "(614) 349-5140", "", "123, 456 789", "", .pickup, "", true⟩

/-- A fully valid transfer form (fill date within the last two years). -/
def sampleTransfer : TransferFormData :=
  ⟨"12345", "2026-01-15", "CVS", "1 Main St", "", "Columbus", "OH", "43210",
   "614-349-5140", "", "", true⟩

/-- A fully valid contact form. -/
def sampleContact : ContactFormData :=
  ⟨"Jane", "614-349-5140", "a@x.com", .general, "", true⟩

/-- An environment with all pharmacy-API credentials present. -/
def envFull : Env := ⟨some "user", some "pass", some "key", some "42"⟩

/-- An HTTP 200 transfer response whose body carries
`ErrorCode: "ERROR0082"` together with `Data.RxTransferred: true`. -/
def respError0082 : HttpResp TransferRespBody :=
  ⟨200, true, { errorCode := some "ERROR0082", dataPresent := true, rxTransferred := some true }⟩

/-- An all-OK refill response for the sample prescription numbers. -/
def respRefillOk : HttpResp RefillRespBody :=
  ⟨200, true,
    { rxInRefillResponse :=
        some [⟨JsNum.ofInt 123, some "OK", none⟩, ⟨JsNum.ofInt 456, some "OK", none⟩,
          ⟨JsNum.ofInt 789, some "OK", none⟩] }⟩

/-! ## Claims -/

/-- C1: a transfer submission answered with HTTP 200 and a body containing
`ErrorCode: "ERROR0082"` and `Data.RxTransferred: true` ends in the
`success` state with no error message — the source's `ERROR0082` mapping is
inside the `!response.ok` branch and is unreachable for status 200, so the
vendor-error contract of the spec is violated by the code. -/
theorem c1_error0082_under_http200_reaches_success :
    (transferHandleSubmit sampleTransfer envFull nowNoon "2026-10-11"
      (some respError0082)).statusSet = some FormStatus.success ∧
    (transferHandleSubmit sampleTransfer envFull nowNoon "2026-10-11"
      (some respError0082)).apiError = none := by
  refine ⟨?_, ?_⟩ <;> decide

/-- C5: the refill validator accepts `"123, 456 789"` and the adapter
payload carries exactly the entries 123, 456, 789 in order, while
`"123, abc"` produces an error on the prescription-numbers field. -/
theorem c5_rx_numbers_examples :
    (refillValidate sampleRefill nowNoon).prescriptionNumbers = none ∧
    ((refillHandleSubmit sampleRefill envFull nowNoon "iso"
        (some respRefillOk)).payload.map (fun p => p.rxInRefillRequest)) =
      some [JsNum.ofInt 123, JsNum.ofInt 456, JsNum.ofInt 789] ∧
    (refillValidate { sampleRefill with prescriptionNumbers := "123, abc" }
        nowNoon).prescriptionNumbers =
      some "Please enter valid, numeric prescription number(s)." := by
  refine ⟨?_, ?_, ?_⟩ <;> decide

/-- C2 counterexample: the waitlist and promotional-signup forms carry no
consent field at all, so submitting them without any consent is not
blocked: a fresh waitlist submission validates cleanly, ends in `success`
and appends to the store, and a splash submission likewise succeeds. -/
theorem c2_counterexample_waitlist_and_splash_have_no_consent :
    waitlistHasErrors (waitlistValidate ⟨"Alice", "A@x.com", ""⟩ []) = false ∧
    (waitlistHandleSubmit ⟨"Alice", "A@x.com", ""⟩ [] "1" "ts").statusSet =
      some FormStatus.success ∧
    (waitlistHandleSubmit ⟨"Alice", "A@x.com", ""⟩ [] "1" "ts").store.length = 1 ∧
    (splashHandleSubmit ⟨"a@x.com"⟩).statusSet = some FormStatus.success := by
  refine ⟨?_, ?_, ?_, ?_⟩ <;> rfl

/-- C3 counterexample: at noon of 2026-10-11, the fill date 2024-10-11 —
exactly two years before the current local date — is rejected by the
transfer validator, because the two-years cutoff retains the current
time-of-day while the parsed fill date is local midnight. -/
theorem c3_counterexample_exact_boundary_rejected :
    (transferValidate { sampleTransfer with rxFillDate := "2024-10-11" }
        nowNoon).rxFillDate =
      some "Fill date cannot be more than 2 years ago." := by
  decide

/-- C4 counterexample: the refill prescription-numbers validator accepts
tokens that are not positive integers — `"-5"` (negative, JS numeric value
minus five), `"0"` (zero) and `"1.5"` (fractional) all pass without error. -/
theorem c4_counterexample_nonpositive_tokens_accepted :
    validateRxNumbers "-5" = none ∧
    jsNumber? "-5" = some (JsNum.ofInt (-5)) ∧
    validateRxNumbers "0" = none ∧
    validateRxNumbers "1.5" = none := by
  refine ⟨?_, ?_, ?_, ?_⟩ <;> decide

/-- C9 counterexample: a fully valid contact submission and a fully valid
promotional-signup submission both end in `success` while performing zero
backend create operations and returning no record identifier — the handlers
are mocks. -/
theorem c9_counterexample_no_backend_create :
    (contactHandleSubmit sampleContact).statusSet = some FormStatus.success ∧
    (contactHandleSubmit sampleContact).backendCreates = 0 ∧
    (contactHandleSubmit sampleContact).returnedId = none ∧
    (splashHandleSubmit ⟨"a@x.com"⟩).statusSet = some FormStatus.success ∧
    (splashHandleSubmit ⟨"a@x.com"⟩).backendCreates = 0 ∧
    (splashHandleSubmit ⟨"a@x.com"⟩).returnedId = none := by
  refine ⟨?_, ?_, ?_, ?_, ?_, ?_⟩ <;> rfl

/-- C10 counterexample: when the storage key holds `"5"` — well-formed JSON
that is not an array — `getWaitlistEntries` returns the number 5, not a
list, and the duplicate-email check then throws a `TypeError`. -/
theorem c10_counterexample_nonarray_json_passes_through :
    (getWaitlistEntriesJ (some "5")).isArr = false ∧
    isEmailOnWaitlistJ "a@x.com" (some "5") = Except.error "TypeError" := by
  exact ⟨rfl, rfl⟩

/-- C2 (amended): for the three forms that do carry a consent field —
contact, refill and transfer — submitting with `consent = false` writes a
consent validation error and blocks submission regardless of every other
field: the status is never touched (the controller stays `idle`) and no
adapter call or network request is made. -/
theorem c2_amended_consent_false_blocks_contact_refill_transfer :
    (∀ f : ContactFormData, f.consent = false →
      (contactValidate f).consent = some "You must acknowledge the statement to proceed." ∧
      (contactHandleSubmit f).statusSet = none ∧
      (contactHandleSubmit f).adapterRan = false) ∧
    (∀ (f : RefillFormData) (env : Env) (now : LocalNow) (iso : String)
        (resp : Option (HttpResp RefillRespBody)), f.consent = false →
      (refillValidate f now).consent = some "You must acknowledge the statement to proceed." ∧
      (refillHandleSubmit f env now iso resp).statusSet = none ∧
      (refillHandleSubmit f env now iso resp).fetchCalled = false) ∧
    (∀ (f : TransferFormData) (env : Env) (now : LocalNow) (iso : String)
        (resp : Option (HttpResp TransferRespBody)), f.consent = false →
      (transferValidate f now).consent = some "You must authorize this transfer request." ∧
      (transferHandleSubmit f env now iso resp).statusSet = none ∧
      (transferHandleSubmit f env now iso resp).fetchCalled = false) := by
  refine ⟨fun f h => ?_, fun f env now iso resp h => ?_, fun f env now iso resp h => ?_⟩
  · have hc : (contactValidate f).consent =
        some "You must acknowledge the statement to proceed." := by
      simp [contactValidate, h]
    refine ⟨hc, ?_, ?_⟩ <;> simp [contactHandleSubmit, contactHasErrors, hc]
  · have hc : (refillValidate f now).consent =
        some "You must acknowledge the statement to proceed." := by
      simp [refillValidate, h]
    refine ⟨hc, ?_, ?_⟩ <;> simp [refillHandleSubmit, refillHasErrors, hc]
  · have hc : (transferValidate f now).consent =
        some "You must authorize this transfer request." := by
      simp [transferValidate, h]
    refine ⟨hc, ?_, ?_⟩ <;> simp [transferHandleSubmit, transferHasErrors, hc]

/-- C2 witness: the amended consent property at concrete otherwise-valid
forms. -/
theorem c2_amended_witness :
    (contactValidate { sampleContact with consent := false }).consent =
      some "You must acknowledge the statement to proceed." ∧
    (contactHandleSubmit { sampleContact with consent := false }).statusSet = none ∧
    (refillHandleSubmit { sampleRefill with consent := false }
      envFull nowNoon "iso" none).fetchCalled = false ∧
    (transferHandleSubmit { sampleTransfer with consent := false }
      envFull nowNoon "iso" none).statusSet = none :=
  ⟨(c2_amended_consent_false_blocks_contact_refill_transfer.1 _ rfl).1,
   (c2_amended_consent_false_blocks_contact_refill_transfer.1 _ rfl).2.1,
   (c2_amended_consent_false_blocks_contact_refill_transfer.2.1 _ envFull nowNoon "iso"
      none rfl).2.2,
   (c2_amended_consent_false_blocks_contact_refill_transfer.2.2 _ envFull nowNoon "iso"
      none rfl).2.1⟩

/-- C4 (amended): the refill prescription-numbers field is accepted exactly
when it is non-empty after trimming, at most 1000 characters, and splits
into at least one token with every token parsing as a JS number (the `NaN`
check) — positivity and integrality are not required. -/
theorem c4_amended_rx_numbers_acceptance (s : String) :
    validateRxNumbers s = none ↔
      (jsTrim s ≠ "" ∧ (jsTrim s).length ≤ 1000 ∧ rxTokens s ≠ [] ∧
        ∀ n ∈ rxTokens s, (jsNumber? n).isSome) := by
  unfold validateRxNumbers
  by_cases h1 : jsTrim s = ""
  · simp [h1]
  · rw [if_neg h1]
    by_cases h2 : (jsTrim s).length > 1000
    · rw [if_pos h2]
      constructor
      · intro hc; simp at hc
      · rintro ⟨-, hlen, -, -⟩; omega
    · rw [if_neg h2]
      by_cases h3 : (rxTokens s).length = 0 ∨
          (rxTokens s).any (fun n => (jsNumber? n).isNone)
      · rw [if_pos h3]
        constructor
        · intro hc; simp at hc
        · rintro ⟨-, -, hne, hall⟩
          rcases h3 with h3 | h3
          · exact absurd (List.length_eq_zero.mp h3) hne
          · obtain ⟨n, hn, hnone⟩ := List.any_eq_true.mp h3
            have hs := hall n hn
            rw [Option.isNone_iff_eq_none.mp hnone] at hs
            simp at hs
      · rw [if_neg h3]
        push_neg at h3
        obtain ⟨h3a, h3b⟩ := h3
        refine iff_of_true rfl ⟨h1, by omega, fun he => h3a (by simp [he]), fun n hn => ?_⟩
        rcases hopt : jsNumber? n with _ | v
        · exact absurd (List.any_eq_true.mpr ⟨n, hn, by simp [hopt]⟩) h3b
        · simp

/-- C4 witness: the amended acceptance condition applied at a concrete
all-numeric input. -/
theorem c4_amended_witness : validateRxNumbers "123" = none :=
  (c4_amended_rx_numbers_acceptance "123").mpr (by decide)

/-- C6: for both pharmacy-API adapters, when the form validates but any
required credential is missing or empty (JS-falsy) — username, API key or
password, pharmacy number — the handler ends in the `error` state with the
service-configuration message and no fetch is dispatched. -/
theorem c6_missing_credentials_config_error :
    (∀ (f : RefillFormData) (env : Env) (now : LocalNow) (iso : String)
        (resp : Option (HttpResp RefillRespBody)),
      refillHasErrors (refillValidate f now) = false →
      (strFalsy env.username || strFalsy env.apiKey || strFalsy env.pharmacyNumber) = true →
      refillHandleSubmit f env now iso resp =
        { errorsSet := none, statusSet := some .error,
          apiError := some "Service configuration error. Please contact support.",
          fetchCalled := false, payload := none }) ∧
    (∀ (f : TransferFormData) (env : Env) (now : LocalNow) (iso : String)
        (resp : Option (HttpResp TransferRespBody)),
      transferHasErrors (transferValidate f now) = false →
      (strFalsy env.username || strFalsy env.password || strFalsy env.pharmacyNumber) = true →
      transferHandleSubmit f env now iso resp =
        { errorsSet := none, statusSet := some .error,
          apiError := some "Service configuration error. Please contact support.",
          fetchCalled := false, payload := none }) := by
  constructor
  · intro f env now iso resp h1 h2
    simp [refillHandleSubmit, h1, h2]
  · intro f env now iso resp h1 h2
    simp [transferHandleSubmit, h1, h2]

/-- C6 witness: concrete valid forms with a missing API key (refill) and a
missing password (transfer) end in the configuration error with no fetch. -/
theorem c6_witness :
    refillHandleSubmit sampleRefill ⟨some "user", some "pass", none, some "42"⟩
        nowNoon "iso" none =
      { errorsSet := none, statusSet := some .error,
        apiError := some "Service configuration error. Please contact support.",
        fetchCalled := false, payload := none } ∧
    transferHandleSubmit sampleTransfer ⟨some "user", none, some "key", some "42"⟩
        nowNoon "iso" none =
      { errorsSet := none, statusSet := some .error,
        apiError := some "Service configuration error. Please contact support.",
        fetchCalled := false, payload := none } :=
  ⟨c6_missing_credentials_config_error.1 sampleRefill _ nowNoon "iso" none
      (by decide) (by decide),
   c6_missing_credentials_config_error.2 sampleTransfer _ nowNoon "iso" none
      (by decide) (by decide)⟩

/-- C9 (amended): every valid contact or promotional-signup submission runs
the mocked delay and ends in `success`, but performs zero backend create
operations and returns no record identifier — the generic insert adapter of
the spec does not exist in the code. -/
theorem c9_amended_mock_submissions :
    (∀ f : ContactFormData, contactHasErrors (contactValidate f) = false →
      contactHandleSubmit f =
        { errorsSet := some {}, statusSet := some .success, adapterRan := true,
          backendCreates := 0, returnedId := none, formAfter := contactDefault }) ∧
    (∀ f : SplashFormData, splashHasErrors (splashValidate f) = false →
      splashHandleSubmit f =
        { errorsSet := some {}, statusSet := some .success, adapterRan := true,
          backendCreates := 0, returnedId := none }) := by
  constructor
  · intro f h; simp [contactHandleSubmit, h]
  · intro f h; simp [splashHandleSubmit, h]

/-- C9 witness: the amended mock-submission property at concrete valid
forms. -/
theorem c9_amended_witness :
    contactHandleSubmit sampleContact =
      { errorsSet := some {}, statusSet := some .success, adapterRan := true,
        backendCreates := 0, returnedId := none, formAfter := contactDefault } ∧
    splashHandleSubmit ⟨"a@x.com"⟩ =
      { errorsSet := some {}, statusSet := some .success, adapterRan := true,
        backendCreates := 0, returnedId := none } :=
  ⟨c9_amended_mock_submissions.1 sampleContact (by decide),
   c9_amended_mock_submissions.2 ⟨"a@x.com"⟩ (by decide)⟩

/-- C10 (amended): `getWaitlistEntries` yields the empty list when the
storage key is absent, holds the empty string, or holds text that fails to
parse as JSON; when the text parses, the parsed JSON value is returned
unchanged — even when it is not an array, in which case the duplicate check
throws (see the counterexample). -/
theorem c10_amended_get_entries (s : String) (v : Json) :
    getWaitlistEntriesJ none = Json.jarr [] ∧
    getWaitlistEntriesJ (some "") = Json.jarr [] ∧
    (jsonParse s = none → getWaitlistEntriesJ (some s) = Json.jarr []) ∧
    (s ≠ "" → jsonParse s = some v → getWaitlistEntriesJ (some s) = v) := by
  refine ⟨rfl, rfl, ?_, ?_⟩
  · intro h
    by_cases hs : s = ""
    · subst hs; rfl
    · simp [getWaitlistEntriesJ, hs, h]
  · intro hs h
    simp [getWaitlistEntriesJ, hs, h]

/-- C10 witness: malformed JSON text falls back to the empty list, while
parseable non-array text is passed through. -/
theorem c10_amended_witness :
    getWaitlistEntriesJ (some "\x7b") = Json.jarr [] ∧
    getWaitlistEntriesJ (some "5") = Json.jnum ⟨5, 0⟩ :=
  ⟨(c10_amended_get_entries "\x7b" Json.null).2.2.1 rfl,
   (c10_amended_get_entries "5" (Json.jnum ⟨5, 0⟩)).2.2.2 (by decide) rfl⟩

/-- C3 (amended): the transfer fill-date validator rejects every fill date
strictly before the civil date two years before today; it accepts every
date strictly between that boundary and today (inclusive of today); and it
rejects the boundary date itself — the date exactly two years before today —
whenever the current local time is past midnight, accepting it only at
exactly midnight, because the two-years cutoff retains the current
time-of-day while the parsed fill date is local midnight. -/
theorem c3_amended_two_year_cutoff (now : LocalNow) (f : TransferFormData) (t : ℤ)
    (hms0 : 0 ≤ now.msOfDay) (hms1 : now.msOfDay < msPerDay)
    (htrim : jsTrim f.rxFillDate ≠ "")
    (hparse : jsDateFromStr f.rxFillDate = some t) :
    (t < twoYearsAgoMidnightMs now →
      (transferValidate f now).rxFillDate =
        some "Fill date cannot be more than 2 years ago.") ∧
    (twoYearsAgoMidnightMs now + msPerDay ≤ t → t ≤ todayMidnightMs now →
      (transferValidate f now).rxFillDate = none) ∧
    (t = twoYearsAgoMidnightMs now → 0 < now.msOfDay →
      (transferValidate f now).rxFillDate =
        some "Fill date cannot be more than 2 years ago.") ∧
    (t = twoYearsAgoMidnightMs now → now.msOfDay = 0 →
      (transferValidate f now).rxFillDate = none) := by
  have hlt := daysFromCivil_sub_two_lt now.year now.month now.day
  have hshape : (transferValidate f now).rxFillDate =
      (if t < twoYearsAgoMs now then some "Fill date cannot be more than 2 years ago."
       else if t > todayMidnightMs now then some "Fill date cannot be in the future."
       else none) := by
    have hfield : (transferValidate f now).rxFillDate =
        validateRxFillDate f.rxFillDate now := rfl
    unfold validateRxFillDate at hfield
    rw [hfield, if_neg htrim, hparse]
  refine ⟨fun h => ?_, fun h2a h2b => ?_, fun heq hpos => ?_, fun heq hzero => ?_⟩
  · rw [hshape, if_pos (by simp only [twoYearsAgoMs]; omega)]
  · rw [hshape, if_neg (by simp only [twoYearsAgoMs]; omega), if_neg (by omega)]
  · rw [hshape, if_pos (by simp only [twoYearsAgoMs]; omega)]
  · rw [hshape, if_neg (by simp only [twoYearsAgoMs]; omega),
      if_neg (by
        simp only [twoYearsAgoMidnightMs, todayMidnightMs, msPerDay] at heq ⊢
        omega)]

/-- C3 witness: at noon of 2026-10-11, 2024-10-10 (more than two years
past) is rejected and 2025-06-15 (inside the window) is accepted. -/
theorem c3_amended_witness :
    (transferValidate { sampleTransfer with rxFillDate := "2024-10-10" }
        nowNoon).rxFillDate = some "Fill date cannot be more than 2 years ago." ∧
    (transferValidate { sampleTransfer with rxFillDate := "2025-06-15" }
        nowNoon).rxFillDate = none :=
  ⟨(c3_amended_two_year_cutoff nowNoon _ (daysFromCivil 2024 10 10 * msPerDay)
      (by decide) (by decide) (by decide) (by decide)).1 (by decide),
   (c3_amended_two_year_cutoff nowNoon _ (daysFromCivil 2025 6 15 * msPerDay)
      (by decide) (by decide) (by decide) (by decide)).2.1 (by decide) (by decide)⟩

set_option maxHeartbeats 1000000 in
/-- C7 counterexample: the email regex is unanchored, so the
whitespace-padded email `" A@x.com"` is a valid waitlist entry; its
submission succeeds and stores it trimmed as `"A@x.com"`.  A second
submission with `" a@X.com"` — case-insensitively equal to the first
email — then passes the validator's duplicate check (which compares the
untrimmed email) with NO error on the email field; it reaches the write,
where `saveWaitlistEntry` refuses the trimmed duplicate, ending in a
generic `error` status instead of the claimed DuplicateEmail field error.
The store is left unchanged (no duplicate is created). -/
theorem c7_counterexample_padded_email_no_field_error :
    waitlistHasErrors (waitlistValidate ⟨"Alice", " A@x.com", ""⟩ []) = false ∧
    (waitlistHandleSubmit ⟨"Alice", " A@x.com", ""⟩ [] "1" "ts").statusSet =
      some FormStatus.success ∧
    (waitlistHandleSubmit ⟨"Alice", " A@x.com", ""⟩ [] "1" "ts").store =
      [⟨"Alice", "A@x.com", "", "1", "ts", .active⟩] ∧
    strToLower " a@X.com" = strToLower " A@x.com" ∧
    (waitlistValidate ⟨"Bob", " a@X.com", ""⟩
        [⟨"Alice", "A@x.com", "", "1", "ts", .active⟩]).email = none ∧
    (waitlistHandleSubmit ⟨"Bob", " a@X.com", ""⟩
        [⟨"Alice", "A@x.com", "", "1", "ts", .active⟩] "2" "ts2").statusSet =
      some FormStatus.error ∧
    (waitlistHandleSubmit ⟨"Bob", " a@X.com", ""⟩
        [⟨"Alice", "A@x.com", "", "1", "ts", .active⟩] "2" "ts2").store =
      [⟨"Alice", "A@x.com", "", "1", "ts", .active⟩] := by
  refine ⟨?_, ?_, ?_, ?_, ?_, ?_, ?_⟩ <;> rfl

/-- C7 (amended): when the first submission validates and its email carries
no surrounding whitespace, submission succeeds and appends exactly one
entry, and a second submission whose email equals the first
case-insensitively gets the duplicate-email error on the email field, is
blocked before any save, and leaves the store unchanged.  For every
submission whatsoever — padded emails included — an entry is only ever
appended when no case-insensitively equal email was already stored, so no
duplicate entry is ever created. -/
theorem c7_amended_waitlist_duplicate_email (store : List WaitlistEntry)
    (f1 f2 : WaitlistFormData) (id1 ts1 id2 ts2 : String)
    (h1 : waitlistHasErrors (waitlistValidate f1 store) = false)
    (hclean : jsTrim f1.email = f1.email)
    (h2 : jsTrim f2.email ≠ "")
    (h3 : emailLike f2.email = true)
    (h4 : strToLower f2.email = strToLower f1.email) :
    (waitlistHandleSubmit f1 store id1 ts1).statusSet = some FormStatus.success ∧
    (waitlistHandleSubmit f1 store id1 ts1).store =
      store ++ [⟨jsTrim f1.name, jsTrim f1.email, jsTrim f1.phone, id1, ts1, .active⟩] ∧
    (waitlistValidate f2 ((waitlistHandleSubmit f1 store id1 ts1).store)).email =
      some "This email address is already on the waitlist." ∧
    (waitlistHandleSubmit f2 ((waitlistHandleSubmit f1 store id1 ts1).store) id2 ts2).store =
      (waitlistHandleSubmit f1 store id1 ts1).store ∧
    (waitlistHandleSubmit f2 ((waitlistHandleSubmit f1 store id1 ts1).store) id2
      ts2).statusSet = none ∧
    (∀ (g : WaitlistFormData) (s : List WaitlistEntry) (idg tsg : String)
        (e : WaitlistEntry), (waitlistHandleSubmit g s idg tsg).saved = some e →
      isEmailOnWaitlist e.email s = false) := by
  have hem : (waitlistValidate f1 store).email = none := by
    simp only [waitlistHasErrors, Bool.or_eq_false_iff] at h1
    exact Option.not_isSome_iff_eq_none.mp (by simp [h1.1.2])
  have hdup : isEmailOnWaitlist f1.email store = false := by
    by_cases hd : isEmailOnWaitlist f1.email store
    · exfalso
      simp only [waitlistValidate] at hem
      split_ifs at hem
    · simpa using hd
  have hsave : saveWaitlistEntry (jsTrim f1.name) (jsTrim f1.email) (jsTrim f1.phone)
      store id1 ts1 =
      .ok (⟨jsTrim f1.name, jsTrim f1.email, jsTrim f1.phone, id1, ts1, .active⟩,
        store ++ [⟨jsTrim f1.name, jsTrim f1.email, jsTrim f1.phone, id1, ts1, .active⟩]) := by
    unfold saveWaitlistEntry
    rw [hclean, if_neg (by unfold isEmailOnWaitlist at hdup; simp [hdup])]
  have hsub1 : waitlistHandleSubmit f1 store id1 ts1 =
      ⟨some {}, some .success,
        store ++ [⟨jsTrim f1.name, jsTrim f1.email, jsTrim f1.phone, id1, ts1, .active⟩],
        some ⟨jsTrim f1.name, jsTrim f1.email, jsTrim f1.phone, id1, ts1, .active⟩⟩ := by
    simp only [waitlistHandleSubmit, h1, Bool.false_eq_true, if_false, hsave]
  have hdup2 : isEmailOnWaitlist f2.email
      (store ++ [⟨jsTrim f1.name, jsTrim f1.email, jsTrim f1.phone, id1, ts1, .active⟩]) =
      true := by
    simp [isEmailOnWaitlist, hclean, h4]
  have hval2 : (waitlistValidate f2
      (store ++ [⟨jsTrim f1.name, jsTrim f1.email, jsTrim f1.phone, id1, ts1, .active⟩])).email =
      some "This email address is already on the waitlist." := by
    simp only [waitlistValidate]
    rw [if_neg h2, if_neg (by simp [h3]), if_pos (by simp [hdup2])]
  have hblock : waitlistHandleSubmit f2
      (store ++ [⟨jsTrim f1.name, jsTrim f1.email, jsTrim f1.phone, id1, ts1, .active⟩])
      id2 ts2 =
      ⟨some (waitlistValidate f2
          (store ++ [⟨jsTrim f1.name, jsTrim f1.email, jsTrim f1.phone, id1, ts1, .active⟩])),
        none,
        store ++ [⟨jsTrim f1.name, jsTrim f1.email, jsTrim f1.phone, id1, ts1, .active⟩],
        none⟩ := by
    simp only [waitlistHandleSubmit]
    rw [if_pos (by simp [waitlistHasErrors, hval2])]
  refine ⟨by rw [hsub1], by rw [hsub1], by simp [hsub1, hval2],
    by simp [hsub1, hblock], by simp [hsub1, hblock], ?_⟩
  intro g s idg tsg e hsaved
  simp only [waitlistHandleSubmit] at hsaved
  by_cases hv : waitlistHasErrors (waitlistValidate g s) = true
  · rw [if_pos hv] at hsaved
    simp at hsaved
  · rw [if_neg hv] at hsaved
    unfold saveWaitlistEntry at hsaved
    split_ifs at hsaved with hd
    simp at hsaved
    subst hsaved
    unfold isEmailOnWaitlist
    simpa using hd

/-- C7 witness: the amended property at `"A@x.com"` then `"a@X.com"` on an
initially empty store, plus the no-duplicate invariant at the first
submission. -/
theorem c7_amended_witness :
    (waitlistHandleSubmit ⟨"Alice", "A@x.com", ""⟩ [] "1" "ts").statusSet =
      some FormStatus.success ∧
    (waitlistValidate ⟨"Bob", "a@X.com", ""⟩
        ((waitlistHandleSubmit ⟨"Alice", "A@x.com", ""⟩ [] "1" "ts").store)).email =
      some "This email address is already on the waitlist." ∧
    (waitlistHandleSubmit ⟨"Bob", "a@X.com", ""⟩
        ((waitlistHandleSubmit ⟨"Alice", "A@x.com", ""⟩ [] "1" "ts").store) "2" "ts2").store =
      (waitlistHandleSubmit ⟨"Alice", "A@x.com", ""⟩ [] "1" "ts").store ∧
    isEmailOnWaitlist "A@x.com" [] = false :=
  ⟨(c7_amended_waitlist_duplicate_email [] ⟨"Alice", "A@x.com", ""⟩ ⟨"Bob", "a@X.com", ""⟩
      "1" "ts" "2" "ts2" (by decide) (by decide) (by decide) (by decide) (by decide)).1,
   (c7_amended_waitlist_duplicate_email [] ⟨"Alice", "A@x.com", ""⟩ ⟨"Bob", "a@X.com", ""⟩
      "1" "ts" "2" "ts2" (by decide) (by decide) (by decide) (by decide) (by decide)).2.2.1,
   (c7_amended_waitlist_duplicate_email [] ⟨"Alice", "A@x.com", ""⟩ ⟨"Bob", "a@X.com", ""⟩
      "1" "ts" "2" "ts2" (by decide) (by decide) (by decide) (by decide) (by decide)).2.2.2.1,
   (c7_amended_waitlist_duplicate_email [] ⟨"Alice", "A@x.com", ""⟩ ⟨"Bob", "a@X.com", ""⟩
      "1" "ts" "2" "ts2" (by decide) (by decide) (by decide) (by decide)
      (by decide)).2.2.2.2.2 ⟨"Alice", "A@x.com", ""⟩ [] "1" "ts"
      ⟨"Alice", "A@x.com", "", "1", "ts", .active⟩ (by decide)⟩

/-- C8: parsing a `YYYY-MM-DD` string as a local calendar date, the refill
date-of-birth validator and the transfer fill-date validator report a
future-date error for every date strictly after today's local midnight and
no error for the current local date itself. -/
theorem c8_future_dates_rejected_today_accepted (now : LocalNow)
    (f : RefillFormData) (g : TransferFormData) (t u : ℤ)
    (hms0 : 0 ≤ now.msOfDay) (hms1 : now.msOfDay < msPerDay)
    (hf : jsTrim f.dob ≠ "") (hft : jsDateFromStr f.dob = some t)
    (hg : jsTrim g.rxFillDate ≠ "") (hgu : jsDateFromStr g.rxFillDate = some u) :
    (todayMidnightMs now < t →
      (refillValidate f now).dob = some "Date of birth cannot be in the future.") ∧
    (t = todayMidnightMs now → (refillValidate f now).dob = none) ∧
    (todayMidnightMs now < u →
      (transferValidate g now).rxFillDate = some "Fill date cannot be in the future.") ∧
    (u = todayMidnightMs now → (transferValidate g now).rxFillDate = none) := by
  have hlt := daysFromCivil_sub_two_lt now.year now.month now.day
  have hdob : (refillValidate f now).dob =
      (if t > todayMidnightMs now then some "Date of birth cannot be in the future."
       else none) := by
    have hfield : (refillValidate f now).dob = validateDob f.dob now := rfl
    unfold validateDob at hfield
    rw [hfield, if_neg hf, hft]
  have hfill : (transferValidate g now).rxFillDate =
      (if u < twoYearsAgoMs now then some "Fill date cannot be more than 2 years ago."
       else if u > todayMidnightMs now then some "Fill date cannot be in the future."
       else none) := by
    have hfield : (transferValidate g now).rxFillDate =
        validateRxFillDate g.rxFillDate now := rfl
    unfold validateRxFillDate at hfield
    rw [hfield, if_neg hg, hgu]
  have hbound : twoYearsAgoMs now < todayMidnightMs now := by
    simp only [twoYearsAgoMs, twoYearsAgoMidnightMs, todayMidnightMs, msPerDay] at *
    omega
  refine ⟨fun h => ?_, fun h => ?_, fun h => ?_, fun h => ?_⟩
  · rw [hdob, if_pos (by omega)]
  · rw [hdob, if_neg (by omega)]
  · rw [hfill, if_neg (by omega), if_pos (by omega)]
  · rw [hfill, if_neg (by omega), if_neg (by omega)]

/-- C8 witness: at noon of 2026-10-11, tomorrow (2026-10-12) is rejected by
both validators and today (2026-10-11) is accepted by both. -/
theorem c8_witness :
    (refillValidate { sampleRefill with dob := "2026-10-12" } nowNoon).dob =
      some "Date of birth cannot be in the future." ∧
    (refillValidate { sampleRefill with dob := "2026-10-11" } nowNoon).dob = none ∧
    (transferValidate { sampleTransfer with rxFillDate := "2026-10-12" }
        nowNoon).rxFillDate = some "Fill date cannot be in the future." ∧
    (transferValidate { sampleTransfer with rxFillDate := "2026-10-11" }
        nowNoon).rxFillDate = none :=
  ⟨(c8_future_dates_rejected_today_accepted nowNoon
      { sampleRefill with dob := "2026-10-12" }
      { sampleTransfer with rxFillDate := "2026-10-12" }
      (daysFromCivil 2026 10 12 * msPerDay) (daysFromCivil 2026 10 12 * msPerDay)
      (by decide) (by decide) (by decide) (by decide) (by decide) (by decide)).1
      (by decide),
   (c8_future_dates_rejected_today_accepted nowNoon
      { sampleRefill with dob := "2026-10-11" }
      { sampleTransfer with rxFillDate := "2026-10-11" }
      (daysFromCivil 2026 10 11 * msPerDay) (daysFromCivil 2026 10 11 * msPerDay)
      (by decide) (by decide) (by decide) (by decide) (by decide) (by decide)).2.1
      (by decide),
   (c8_future_dates_rejected_today_accepted nowNoon
      { sampleRefill with dob := "2026-10-12" }
      { sampleTransfer with rxFillDate := "2026-10-12" }
      (daysFromCivil 2026 10 12 * msPerDay) (daysFromCivil 2026 10 12 * msPerDay)
      (by decide) (by decide) (by decide) (by decide) (by decide) (by decide)).2.2.1
      (by decide),
   (c8_future_dates_rejected_today_accepted nowNoon
      { sampleRefill with dob := "2026-10-11" }
      { sampleTransfer with rxFillDate := "2026-10-11" }
      (daysFromCivil 2026 10 11 * msPerDay) (daysFromCivil 2026 10 11 * msPerDay)
      (by decide) (by decide) (by decide) (by decide) (by decide) (by decide)).2.2.2
      (by decide)⟩

end PharmacySite
